import Mathlib

/-!
Verification of the araviel-api chat pipeline.

This file gives a shallow embedding of the parts of the repository that the
verified properties are about:

* `src/lib/types.ts` — the shared data shapes (`ModelInfo`, `ADEResponse`,
  `TokenUsage`, the `SUPPORTED_PROVIDERS` set);
* `src/lib/chat-helpers.ts` — `resolveModel`, `guessProviderFromModelId`,
  `findSupportedBackup`, `fetchConversationHistory`;
* `src/lib/providers/index.ts` — `getAvailableProviders` (over an abstract
  process environment);
* `src/config/models.ts` and `src/lib/cost.ts` — the pricing tables,
  `getModelPricing`, `calculateCost`;
* `src/lib/providers/openai.ts` and `src/lib/providers/anthropic.ts` — the
  adapter `stream` generators, as functions from the vendor's event sequence
  (plus a flag recording whether the vendor stream throws after the listed
  events) to the produced uniform event sequence plus a flag recording
  whether an exception escapes the generator;
* `src/app/api/chat/route.ts` — `streamFromProvider` and the
  primary/backup orchestration of `handleChat` (steps 12–13), as a function
  of the routing decision and of the provider streams each attempt sees.

Numbers that are monetary rates are modelled as rationals (`ℚ`); the
JavaScript `Number.prototype.toFixed(6)` rounding is idealised as rounding
half-up to 6 decimal places of the exact rational value.  Token counts are
`ℕ`, matching the non-negative-integer contract of `TokenUsage`.
Fallible TypeScript code (functions that `throw`) is embedded with
`Except`/flags; external effects (Supabase, SSE transport) are made explicit
parameters or outputs.
-/

/-! ### String helpers

`modelId.startsWith(key)` and `modelId.includes(key)` from JavaScript are
embedded as prefix / contiguous-subsequence tests on the character lists. -/

def strStartsWith (s p : String) : Bool :=
  p.toList.isPrefixOf s.toList

/-- Bool test that `n` occurs contiguously inside `h` (JS `h.includes(n)`). -/
def containsSeq (n : List Char) : List Char → Bool
  | [] => n.isEmpty
  | c :: t => n.isPrefixOf (c :: t) || containsSeq n t

def strIncludes (s p : String) : Bool :=
  containsSeq p.toList s.toList

/-! ### Data shapes from `src/lib/types.ts` -/

/-- `SUPPORTED_PROVIDERS` from `src/lib/types.ts`: the fixed set of vendors
the backend has an adapter for. -/
def SUPPORTED_PROVIDERS : List String :=
  ["openai", "anthropic", "google", "perplexity"]

/-- `ModelInfo` from `src/lib/types.ts`. -/
structure ModelInfo where
  id : String
  name : String
  provider : String
  score : ℚ
  reasoning : String
deriving DecidableEq, Repr

/-- `ADEModelResult` from `src/lib/types.ts` (the nested `reasoning.summary`
is the only reasoning field `resolveModel` reads). -/
structure ADEModelResult where
  id : String
  name : String
  provider : String
  score : ℚ
  reasoningSummary : String
deriving DecidableEq, Repr

/-- The fields of `ADEResponse` that the routing resolver consumes. -/
structure ADEResponse where
  primaryModel : ADEModelResult
  backupModels : List ADEModelResult
deriving DecidableEq, Repr

/-- `TokenUsage` from `src/lib/types.ts`. -/
structure TokenUsage where
  inputTokens : ℕ
  outputTokens : ℕ
  reasoningTokens : ℕ
  cachedTokens : ℕ
  webSearchRequests : Option ℕ := none
deriving DecidableEq, Repr

def emptyUsage : TokenUsage := ⟨0, 0, 0, 0, none⟩

/-- `Citation` from `src/lib/types.ts`. -/
structure Citation where
  url : String
  title : String
  snippet : Option String := none
deriving DecidableEq, Repr

/-! ### `src/lib/providers/index.ts` — credential-configured vendors -/

/-- `PROVIDER_ENV_KEYS` from `src/lib/providers/index.ts`. -/
def PROVIDER_ENV_KEYS : List (String × String) :=
  [("openai", "OPENAI_API_KEY"),
   ("anthropic", "ANTHROPIC_API_KEY"),
   ("google", "GOOGLE_API_KEY"),
   ("perplexity", "PERPLEXITY_API_KEY")]

/-- `getAvailableProviders` from `src/lib/providers/index.ts`.  The process
environment is abstracted as the predicate `env : String → Bool` telling
whether a variable is set to a truthy value (`!!process.env[envKey]`). -/
def getAvailableProviders (env : String → Bool) : List String :=
  (PROVIDER_ENV_KEYS.filter (fun p => env p.2)).map (fun p => p.1)

/-! ### `src/lib/chat-helpers.ts` — the routing resolver -/

/-- The local `toModelInfo` conversion inside `resolveModel`. -/
def toModelInfo (m : ADEModelResult) : ModelInfo :=
  { id := m.id
    name := m.name
    provider := m.provider
    score := m.score
    reasoning := m.reasoningSummary }

/-- `guessProviderFromModelId` from `src/lib/chat-helpers.ts`. -/
def guessProviderFromModelId (modelId : String) : String :=
  if strStartsWith modelId "claude" then "anthropic"
  else if strStartsWith modelId "gpt" || strStartsWith modelId "o3"
      || strStartsWith modelId "o4" then "openai"
  else if strStartsWith modelId "gemini" then "google"
  else if strStartsWith modelId "sonar" then "perplexity"
  else "openai"

/-- The record returned by `resolveModel`. -/
structure Resolved where
  model : ModelInfo
  backupModels : List ModelInfo
  isManualSelection : Bool
deriving DecidableEq, Repr

/-- `resolveModel` from `src/lib/chat-helpers.ts`.  The thrown
`No supported provider available…` error is embedded as `Except.error`. -/
def resolveModel (adeResponse : ADEResponse) (selectedModelId : Option String) :
    Except String Resolved :=
  match selectedModelId with
  | some sel =>
    let allModels := adeResponse.primaryModel :: adeResponse.backupModels
    match allModels.find? (fun m => m.id == sel) with
    | some selected =>
      let others := allModels.filter (fun m => m.id != sel)
      .ok { model := toModelInfo selected
            backupModels := others.map toModelInfo
            isManualSelection := true }
    | none =>
      .ok { model :=
              { id := sel
                name := sel
                provider := guessProviderFromModelId sel
                score := 0
                reasoning := "Manually selected by user" }
            backupModels :=
              (adeResponse.primaryModel :: adeResponse.backupModels).map toModelInfo
            isManualSelection := true }
  | none =>
    let primary := adeResponse.primaryModel
    if SUPPORTED_PROVIDERS.contains primary.provider then
      .ok { model := toModelInfo primary
            backupModels := adeResponse.backupModels.map toModelInfo
            isManualSelection := false }
    else
      match adeResponse.backupModels.find?
          (fun b => SUPPORTED_PROVIDERS.contains b.provider) with
      | some backup =>
        let others := adeResponse.backupModels.filter (fun m => m.id != backup.id)
        .ok { model := toModelInfo backup
              backupModels := toModelInfo primary :: others.map toModelInfo
              isManualSelection := false }
      | none =>
        .error "No supported provider available. ADE recommended providers that are not yet supported."

/-- `findSupportedBackup` from `src/lib/chat-helpers.ts`. -/
def findSupportedBackup (backupModels : List ModelInfo) : Option ModelInfo :=
  backupModels.find? (fun m => SUPPORTED_PROVIDERS.contains m.provider)

/-! ### `src/config/models.ts` — the pricing tables -/

/-- `ModelPricing` from `src/config/models.ts`. -/
structure ModelPricing where
  inputPerMillion : ℚ
  outputPerMillion : ℚ
deriving DecidableEq, Repr

/-- `MODEL_PRICING` from `src/config/models.ts`, as an association list in
the object's key insertion order (the order `Object.entries` iterates). -/
def MODEL_PRICING : List (String × ModelPricing) :=
  [("gpt-5.2", ⟨1.75, 14⟩),
   ("gpt-5.2-pro", ⟨21, 168⟩),
   ("gpt-5.1", ⟨1.25, 10⟩),
   ("gpt-5", ⟨1.25, 10⟩),
   ("gpt-5-mini", ⟨0.25, 2⟩),
   ("gpt-5-nano", ⟨0.05, 0.4⟩),
   ("gpt-5.1-codex", ⟨1.25, 10⟩),
   ("gpt-5.1-codex-mini", ⟨0.25, 2⟩),
   ("gpt-4.1", ⟨2, 8⟩),
   ("gpt-4.1-mini", ⟨0.4, 1.6⟩),
   ("gpt-4.1-nano", ⟨0.1, 1.4⟩),
   ("gpt-4o", ⟨2.5, 10⟩),
   ("gpt-4o-mini", ⟨0.15, 0.6⟩),
   ("o3", ⟨2, 8⟩),
   ("o3-pro", ⟨20, 80⟩),
   ("o4-mini", ⟨1.1, 4.4⟩),
   ("claude-opus-4-6", ⟨5, 25⟩),
   ("claude-opus-4-5-20251101", ⟨5, 25⟩),
   ("claude-opus-4-20250514", ⟨15, 75⟩),
   ("claude-opus-4-1-20250610", ⟨15, 75⟩),
   ("claude-sonnet-4-6", ⟨3, 15⟩),
   ("claude-sonnet-4-5-20250929", ⟨3, 15⟩),
   ("claude-haiku-4-5-20251001", ⟨1, 5⟩),
   ("claude-3-5-haiku-20241022", ⟨0.8, 4⟩),
   ("gemini-2.5-pro", ⟨1.25, 10⟩),
   ("gemini-2.5-pro-preview-05-06", ⟨1.25, 10⟩),
   ("gemini-2.5-flash", ⟨0.075, 0.3⟩),
   ("gemini-2.5-flash-preview-04-17", ⟨0.075, 0.3⟩),
   ("gemini-2.5-flash-lite", ⟨0.025, 0.1⟩),
   ("gemini-2.5-flash-lite-preview-06-17", ⟨0.025, 0.1⟩),
   ("sonar", ⟨1, 1⟩),
   ("sonar-pro", ⟨3, 15⟩)]

/-- `PROVIDER_DEFAULTS` from `src/config/models.ts`. -/
def PROVIDER_DEFAULTS : List (String × ModelPricing) :=
  [("openai", ⟨2, 8⟩),
   ("anthropic", ⟨3, 15⟩),
   ("google", ⟨1.25, 10⟩),
   ("perplexity", ⟨1, 1⟩)]

/-- The `for (const [key, pricing] of Object.entries(MODEL_PRICING))` loop
body of `getModelPricing`: the first entry (in insertion order) whose key is
a prefix of, or contained in, `modelId`. -/
def pricingLoop (modelId : String) :
    List (String × ModelPricing) → Option ModelPricing
  | [] => none
  | e :: rest =>
    if strStartsWith modelId e.1 || strIncludes modelId e.1 then some e.2
    else pricingLoop modelId rest

/-- `getModelPricing` from `src/config/models.ts`. -/
def getModelPricing (modelId : String) (provider : String) : ModelPricing :=
  match MODEL_PRICING.find? (fun e => e.1 == modelId) with
  | some e => e.2
  | none =>
    match pricingLoop modelId MODEL_PRICING with
    | some p => p
    | none =>
      match PROVIDER_DEFAULTS.find? (fun e => e.1 == provider) with
      | some e => e.2
      | none => ⟨2, 10⟩

/-! ### `src/lib/cost.ts` — the cost accountant -/

/-- `WEB_SEARCH_COST_PER_REQUEST` from `src/lib/cost.ts`. -/
def WEB_SEARCH_COST_PER_REQUEST : List (String × ℚ) :=
  [("anthropic", 0.01), ("openai", 0), ("google", 0.035), ("perplexity", 0)]

/-- `calculateWebSearchCost` from `src/lib/cost.ts`. -/
def calculateWebSearchCost (provider : String) (requestCount : ℕ) : ℚ :=
  if requestCount = 0 then 0
  else
    (match WEB_SEARCH_COST_PER_REQUEST.find? (fun e => e.1 == provider) with
     | some e => e.2
     | none => 0) * requestCount

/-- `parseFloat(x.toFixed(6))`, idealised: round half-up to 6 decimals. -/
def round6 (x : ℚ) : ℚ :=
  (round (x * 1000000) : ℚ) / 1000000

/-- `calculateCost` from `src/lib/cost.ts`. -/
def calculateCost (provider : String) (modelId : String) (usage : TokenUsage) : ℚ :=
  let pricing := getModelPricing modelId provider
  let inputCost := (usage.inputTokens : ℚ) / 1000000 * pricing.inputPerMillion
  let outputCost := (usage.outputTokens : ℚ) / 1000000 * pricing.outputPerMillion
  let reasoningCost := (usage.reasoningTokens : ℚ) / 1000000 * pricing.outputPerMillion
  let webSearchCost := calculateWebSearchCost provider (usage.webSearchRequests.getD 0)
  round6 (inputCost + outputCost + reasoningCost + webSearchCost)

/-! ### `src/lib/providers/base.ts` — the uniform stream events -/

/-- `ProviderStreamEvent` from `src/lib/providers/base.ts`.  Each variant
carries the fields the adapters actually set for it.  The `done` event's
`webSearchUsed` is `false` when the adapter leaves it undefined (the OpenAI
adapter), matching JavaScript truthiness at the consumer. -/
inductive ProviderStreamEvent where
  | delta (content : String)
  | thinking (content : String)
  | citations (citations : List Citation)
  | toolUse (tool : String) (status : String)
  | done (usage : TokenUsage) (webSearchUsed : Bool)
  | error (message : String)
deriving DecidableEq, Repr

/-- A `done` or `error` event, the terminal shapes of the uniform protocol. -/
def ProviderStreamEvent.isTerminal : ProviderStreamEvent → Bool
  | .done _ _ => true
  | .error _ => true
  | _ => false

def ProviderStreamEvent.isDone : ProviderStreamEvent → Bool
  | .done _ _ => true
  | _ => false

def ProviderStreamEvent.isError : ProviderStreamEvent → Bool
  | .error _ => true
  | _ => false

/-! ### `src/lib/providers/anthropic.ts` — the Anthropic adapter

The vendor SDK's stream is abstracted as the list of events the
`for await` loop observes, together with a flag saying whether the vendor
stream throws after those events (a mid-stream vendor failure truncates the
list at the failure point), and the `finalMessage()` snapshot consumed after
the loop.  The embedding returns the produced uniform events paired with a
flag saying whether an exception escapes the generator (the generator has no
try/catch, so a vendor throw propagates). -/

inductive AnthropicDelta where
  | textDelta (text : String)
  | thinkingDelta (thinking : String)
  | otherDelta
deriving DecidableEq, Repr

inductive AnthropicVendorEvent where
  | contentBlockDelta (d : AnthropicDelta)
  | contentBlockStartToolUse (name : String)
  | contentBlockStartOther
  | otherEvent
deriving DecidableEq, Repr

/-- The fields of `stream.finalMessage()` the adapter reads: usage counters,
the vendor-reported web-search request count, and the url-bearing
`web_search_result` entries of `web_search_tool_result` blocks (already
converted to citations the way the adapter's loop does). -/
structure AnthropicFinalMessage where
  inputTokens : ℕ
  outputTokens : ℕ
  cacheReadInputTokens : ℕ
  webSearchRequests : ℕ
  searchResultCitations : List Citation
deriving DecidableEq, Repr

/-- One step of the Anthropic adapter's `for await` loop. -/
def anthropicLoopEvent : AnthropicVendorEvent → List ProviderStreamEvent
  | .contentBlockDelta (.textDelta s) => [.delta s]
  | .contentBlockDelta (.thinkingDelta s) => [.thinking s]
  | .contentBlockDelta .otherDelta => []
  | .contentBlockStartToolUse n => [.toolUse n "searching"]
  | .contentBlockStartOther => []
  | .otherEvent => []

/-- The events the Anthropic adapter yields after its loop completes:
usage snapshot from `finalMessage`, an optional `citations` event, then the
single `done`. -/
def anthropicTail (fm : AnthropicFinalMessage) : List ProviderStreamEvent :=
  let usage : TokenUsage :=
    { inputTokens := fm.inputTokens
      outputTokens := fm.outputTokens
      reasoningTokens := 0
      cachedTokens := fm.cacheReadInputTokens
      webSearchRequests :=
        if fm.webSearchRequests > 0 then some fm.webSearchRequests else none }
  let collectedCitations := fm.searchResultCitations
  let webSearchUsed := collectedCitations.length > 0 || fm.webSearchRequests > 0
  (if collectedCitations.length > 0 then [.citations collectedCitations] else [])
    ++ [.done usage webSearchUsed]

/-- `AnthropicProvider.stream` from `src/lib/providers/anthropic.ts`. -/
def anthropicStream (events : List AnthropicVendorEvent) (vendorThrows : Bool)
    (fm : AnthropicFinalMessage) : List ProviderStreamEvent × Bool :=
  let loopOut := (events.map anthropicLoopEvent).flatten
  if vendorThrows then (loopOut, true)
  else (loopOut ++ anthropicTail fm, false)

/-! ### `src/lib/providers/openai.ts` — the OpenAI adapter -/

/-- The fields of a `response.completed` payload the adapter reads. -/
structure OpenAIResponsePayload where
  usage : Option TokenUsage
  urlCitations : List Citation
deriving DecidableEq, Repr

inductive OpenAIVendorEvent where
  | outputTextDelta (delta : String)
  | reasoningSummaryTextDelta (delta : String)
  | completed (response : OpenAIResponsePayload)
  | otherEvent
deriving DecidableEq, Repr

/-- One step of the OpenAI adapter's `for await` loop.  The state carries the
mutable `usage` record and the `collectedCitations` accumulator. -/
def openaiStep (st : TokenUsage × List Citation) (e : OpenAIVendorEvent) :
    (TokenUsage × List Citation) × List ProviderStreamEvent :=
  match e with
  | .outputTextDelta s => (st, [.delta s])
  | .reasoningSummaryTextDelta s => (st, [.thinking s])
  | .completed r =>
    let usage := match r.usage with
      | some u => u
      | none => st.1
    let collected := st.2 ++ r.urlCitations
    ((usage, collected),
      (if collected.length > 0 then [.citations collected] else [])
        ++ [.done usage false])
  | .otherEvent => (st, [])

def openaiLoop (st : TokenUsage × List Citation) :
    List OpenAIVendorEvent → List ProviderStreamEvent
  | [] => []
  | e :: rest => (openaiStep st e).2 ++ openaiLoop (openaiStep st e).1 rest

/-- `OpenAIProvider.stream` from `src/lib/providers/openai.ts`: the loop is
the whole generator body (nothing is yielded after it), so a vendor stream
that ends without a `response.completed` event produces no `done`. -/
def openaiStream (events : List OpenAIVendorEvent) (vendorThrows : Bool) :
    List ProviderStreamEvent × Bool :=
  (openaiLoop (emptyUsage, []) events, vendorThrows)

/-! ### `src/app/api/chat/route.ts` — outward SSE protocol and orchestrator -/

/-- The outward SSE events `handleChat` emits from the routing step on, with
the data the verified properties are about (error events keep their `code`
and `message`; `done` keeps the usage and cost written into its payload). -/
inductive SSE where
  | routing
  | delta (content : String)
  | thinking (content : String)
  | citations (citations : List Citation)
  | toolUse (tool : String) (status : String)
  | done (usage : TokenUsage) (costUsd : ℚ)
  | error (code : String) (message : String)
deriving Repr

def SSE.isDone : SSE → Bool
  | .done _ _ => true
  | _ => false

def SSE.isErrorCode (code : String) : SSE → Bool
  | .error c _ => c == code
  | _ => false

/-- `StreamResult` from `src/app/api/chat/route.ts`. -/
structure StreamResult where
  success : Bool
  content : String
  thinkingContent : String
  citations : List Citation
  usage : TokenUsage
  webSearchUsed : Bool
  errorMessage : Option String := none
deriving Repr

/-- What one provider attempt sees: the uniform events its adapter stream
yields, and whether the adapter stream raises an exception after them (a
vendor throw propagating through the adapter truncates the event list at the
failure point). -/
structure AttemptStream where
  events : List ProviderStreamEvent
  throws : Bool
deriving Repr

/-- The `for await (const event of providerStream)` loop of
`streamFromProvider`, with the `content`, `thinkingContent`, `citations`,
`usage`, `webSearchUsed` accumulators.  An `error` event is thrown and caught
by the surrounding try/catch, abandoning the rest of the stream; an empty
`delta`/`thinking` fragment is neither forwarded nor accumulated (JS
truthiness of `event.content`). -/
def sfpLoop (content thinkingContent : String) (citations : List Citation)
    (usage : TokenUsage) (webSearchUsed : Bool) (throwsAtEnd : Bool) :
    List ProviderStreamEvent → StreamResult × List SSE
  | [] =>
    (⟨!throwsAtEnd, content, thinkingContent, citations, usage, webSearchUsed,
      if throwsAtEnd then some "vendor stream failure" else none⟩, [])
  | e :: rest =>
    match e with
    | .delta s =>
      if s == "" then
        sfpLoop content thinkingContent citations usage webSearchUsed throwsAtEnd rest
      else
        let r :=
          sfpLoop (content ++ s) thinkingContent citations usage webSearchUsed
            throwsAtEnd rest
        (r.1, .delta s :: r.2)
    | .thinking s =>
      if s == "" then
        sfpLoop content thinkingContent citations usage webSearchUsed throwsAtEnd rest
      else
        let r :=
          sfpLoop content (thinkingContent ++ s) citations usage webSearchUsed
            throwsAtEnd rest
        (r.1, .thinking s :: r.2)
    | .citations cs =>
      let r :=
        sfpLoop content thinkingContent (citations ++ cs) usage webSearchUsed
          throwsAtEnd rest
      (r.1, .citations cs :: r.2)
    | .toolUse t st =>
      let r :=
        sfpLoop content thinkingContent citations usage webSearchUsed throwsAtEnd rest
      (r.1, .toolUse t st :: r.2)
    | .done u w =>
      sfpLoop content thinkingContent citations u (webSearchUsed || w) throwsAtEnd rest
    | .error msg =>
      (⟨false, content, thinkingContent, citations, usage, webSearchUsed, some msg⟩, [])

/-- `streamFromProvider` from `src/app/api/chat/route.ts`: the unsupported
provider guard throws before any event is consumed; otherwise the adapter
stream is drained by `sfpLoop`.  Returns the `StreamResult` and the SSE
events forwarded outward during the attempt. -/
def streamFromProvider (provider : String) (attempt : AttemptStream) :
    StreamResult × List SSE :=
  if SUPPORTED_PROVIDERS.contains provider then
    sfpLoop "" "" [] emptyUsage false attempt.throws attempt.events
  else
    (⟨false, "", "", [], emptyUsage, false,
      some ("Unsupported provider: " ++ provider)⟩, [])

/-- The `done` SSE event `finalize` emits (its payload carries the attempt's
usage and the cost computed for the model that produced the result).
`finalize` is also the only place `insertAssistantMessage` is called. -/
def finalizeDoneEvent (model : ModelInfo) (result : StreamResult) : SSE :=
  .done result.usage (calculateCost model.provider model.id result.usage)

/-- The outcome of the orchestration: the outward events from the `routing`
event on, the models attempted (in order), and the models for which
`finalize` ran — i.e. for which an assistant-message record (the
FinalizedExchange) was inserted. -/
structure ChatOutcome where
  events : List SSE
  attempts : List ModelInfo
  finalized : List ModelInfo
deriving Repr

def retryMessage (backup : ModelInfo) : String :=
  "Retrying with backup model " ++ backup.name ++ "..."

/-- Steps 11–13 of `handleChat` in `src/app/api/chat/route.ts` (the current
handler): emit `routing`, drive the primary attempt, on failure pick the
first supported backup, emit the `PROVIDER_RETRY` notice, drive the single
backup attempt, and either `finalize` or emit the terminal error.
`attemptOf` gives the adapter stream each attempted model's provider
produces for this request. -/
def handleChatStream (model : ModelInfo) (backupModels : List ModelInfo)
    (attemptOf : ModelInfo → AttemptStream) : ChatOutcome :=
  let res1 := streamFromProvider model.provider (attemptOf model)
  let streamResult := res1.1
  let out1 := res1.2
  if streamResult.success then
    { events := SSE.routing :: out1 ++ [finalizeDoneEvent model streamResult]
      attempts := [model]
      finalized := [model] }
  else
    match findSupportedBackup backupModels with
    | some backup =>
      let res2 := streamFromProvider backup.provider (attemptOf backup)
      let backupResult := res2.1
      let out2 := res2.2
      if backupResult.success then
        { events := SSE.routing :: out1
            ++ SSE.error "PROVIDER_RETRY" (retryMessage backup)
            :: out2 ++ [finalizeDoneEvent backup backupResult]
          attempts := [model, backup]
          finalized := [backup] }
      else
        { events := SSE.routing :: out1
            ++ SSE.error "PROVIDER_RETRY" (retryMessage backup)
            :: out2
            ++ [SSE.error "ALL_PROVIDERS_FAILED"
                  "Both primary and backup models failed. Please try again."]
          attempts := [model, backup]
          finalized := [] }
    | none =>
      { events := SSE.routing :: out1
          ++ [SSE.error "PROVIDER_ERROR"
                "Provider failed and no backup model is available."]
        attempts := [model]
        finalized := [] }

/-! ### `src/lib/chat-helpers.ts` — `fetchConversationHistory`

The external record store is modelled as the list of rows in the `messages`
and `sub_conversations` tables; the PostgREST query the code builds
(`eq`/`is` filters, `order(created_at, ascending)`, `limit(20)`) is given
its standard relational semantics: filter, sort ascending by `created_at`,
take 20. -/

/-- The columns of a `messages` row the history query touches. -/
structure DBMessage where
  id : String
  conversation_id : String
  sub_conversation_id : Option String
  role : String
  content : String
  created_at : ℕ
deriving DecidableEq, Repr

/-- The columns of a `sub_conversations` row the history query touches. -/
structure DBSubConversation where
  id : String
  conversation_id : String
  parent_message_id : String
  highlighted_text : String
deriving DecidableEq, Repr

/-- `ConversationMessage` from `src/lib/types.ts` (role kept as a string;
the code casts the stored role through unchanged). -/
structure ConversationMessage where
  role : String
  content : String
deriving DecidableEq, Repr

/-- Insert one row into a list sorted ascending by `created_at`. -/
def insertByCreatedAt (m : DBMessage) : List DBMessage → List DBMessage
  | [] => [m]
  | h :: t =>
    if m.created_at ≤ h.created_at then m :: h :: t
    else h :: insertByCreatedAt m t

/-- `order("created_at", { ascending: true })`: sort ascending. -/
def orderByCreatedAtAsc : List DBMessage → List DBMessage
  | [] => []
  | h :: t => insertByCreatedAt h (orderByCreatedAtAsc t)

/-- The sub-conversation branch's row query:
`eq("sub_conversation_id", subId) · order(created_at asc) · limit(20)`. -/
def selectSubMessages (messages : List DBMessage) (subId : String) :
    List DBMessage :=
  (orderByCreatedAtAsc
    (messages.filter (fun m => m.sub_conversation_id == some subId))).take 20

/-- The main branch's row query: `eq("conversation_id", conversationId) ·
is("sub_conversation_id", null) · order(created_at asc) · limit(20)`. -/
def selectMainMessages (messages : List DBMessage) (conversationId : String) :
    List DBMessage :=
  (orderByCreatedAtAsc
    (messages.filter (fun m =>
      m.conversation_id == conversationId && m.sub_conversation_id == none))).take 20

/-- The context system message built from a sub-conversation's
`highlighted_text`. -/
def highlightContextContent (highlightedText : String) : String :=
  "The user is asking a follow-up question about this specific text they highlighted from a previous response:\n\n\""
    ++ highlightedText
    ++ "\"\n\nRespond in the context of this highlighted text."

/-- `fetchConversationHistory` from `src/lib/chat-helpers.ts`.  For a
sub-conversation request the single `sub_conversations` row lookup may find
no row (the code ignores the error and just skips the context message), and
an empty `highlighted_text` is falsy, also skipping it. -/
def fetchConversationHistory (messages : List DBMessage)
    (subConversations : List DBSubConversation) (conversationId : String)
    (subConversationId : Option String) : List ConversationMessage :=
  match subConversationId with
  | some subId =>
    let subConv := subConversations.find? (fun s => s.id == subId)
    let contextMessages : List ConversationMessage :=
      match subConv with
      | some s =>
        if s.highlighted_text == "" then []
        else [⟨"system", highlightContextContent s.highlighted_text⟩]
      | none => []
    contextMessages
      ++ (selectSubMessages messages subId).map (fun m => ⟨m.role, m.content⟩)
  | none =>
    (selectMainMessages messages conversationId).map (fun m => ⟨m.role, m.content⟩)

/-! ### Auxiliary predicates and claim-side (spec-worded) definitions -/

def SSE.isErrorEvent : SSE → Bool
  | .error _ _ => true
  | _ => false

def OpenAIVendorEvent.isCompleted : OpenAIVendorEvent → Bool
  | .completed _ => true
  | _ => false

/-- The fallback tier of the pricing cascade stated with list combinators
(first entry, in declaration order, whose key is a prefix of or contained in
the model id): used to characterise the `for`-loop of `getModelPricing`. -/
def firstOrderMatch (modelId : String) : Option ModelPricing :=
  (MODEL_PRICING.find? (fun e =>
    strStartsWith modelId e.1 || strIncludes modelId e.1)).map (fun e => e.2)

/-- Claim-side pricing lookup following the specification's words for the
fallback tier: among the known identifiers that are a prefix of or contained
in the model id, take the LONGEST one (leftmost among equal lengths). -/
def longestMatchEntry (modelId : String) :
    List (String × ModelPricing) → Option (String × ModelPricing)
  | [] => none
  | e :: rest =>
    let r := longestMatchEntry modelId rest
    if strStartsWith modelId e.1 || strIncludes modelId e.1 then
      match r with
      | none => some e
      | some f => if e.1.length < f.1.length then some f else some e
    else r

/-- Claim-side pricing resolver: exact match, else longest prefix/contains
match, else vendor default, else the global default — the cascade exactly as
the specification states it. -/
def claimPricingLongestMatch (modelId : String) (provider : String) : ModelPricing :=
  match MODEL_PRICING.find? (fun e => e.1 == modelId) with
  | some e => e.2
  | none =>
    match longestMatchEntry modelId MODEL_PRICING with
    | some e => e.2
    | none =>
      match PROVIDER_DEFAULTS.find? (fun e => e.1 == provider) with
      | some e => e.2
      | none => ⟨2, 10⟩

/-- Claim-side cost function: the cost formula of `calculateCost` (reasoning
billed at the output rate, per-search fee, rounded to 6 decimals) over the
claim's longest-match pricing cascade. -/
def claimCostLongestMatch (provider : String) (modelId : String)
    (usage : TokenUsage) : ℚ :=
  let pricing := claimPricingLongestMatch modelId provider
  let inputCost := (usage.inputTokens : ℚ) / 1000000 * pricing.inputPerMillion
  let outputCost := (usage.outputTokens : ℚ) / 1000000 * pricing.outputPerMillion
  let reasoningCost := (usage.reasoningTokens : ℚ) / 1000000 * pricing.outputPerMillion
  let webSearchCost := calculateWebSearchCost provider (usage.webSearchRequests.getD 0)
  round6 (inputCost + outputCost + reasoningCost + webSearchCost)

/-! ## Shared lemmas -/

/-- `List.find?` over a split list whose left part wholly fails the
predicate returns the split point when it satisfies it. -/
theorem find?_split_eq_some {α : Type} {p : α → Bool} (l1 : List α) (b : α)
    (l2 : List α) (hl1 : ∀ x ∈ l1, p x = false) (hb : p b = true) :
    (l1 ++ b :: l2).find? p = some b := by
  rw [List.find?_append]
  have h1 : l1.find? p = none :=
    List.find?_eq_none.mpr (fun x hx => by simp [hl1 x hx])
  rw [h1, List.find?_cons_of_pos _ hb]
  rfl

/-! ## Claim C5 — the routing resolver is deterministic -/

/-- Claim C5 (confirmed): the Routing Resolver is a pure function of the
oracle response and the optional manual model id (the usable-vendor set it
consults is the module-level constant `SUPPORTED_PROVIDERS`, identical
across runs): two runs on equal inputs produce the same `Resolved` decision
— same primary, same backup list in the same order, same
`isManualSelection` flag — or the same failure. -/
theorem c5_resolver_deterministic (a1 a2 : ADEResponse) (s1 s2 : Option String)
    (ha : a1 = a2) (hs : s1 = s2) :
    resolveModel a1 s1 = resolveModel a2 s2 := by
  subst ha
  subst hs
  rfl

/-- Witness for C5 at a concrete oracle response and manual id. -/
theorem c5_resolver_deterministic_witness :
    resolveModel ⟨⟨"gpt-5.2", "GPT-5.2", "openai", 1, "p"⟩, []⟩ (some "gpt-4.1")
      = resolveModel ⟨⟨"gpt-5.2", "GPT-5.2", "openai", 1, "p"⟩, []⟩ (some "gpt-4.1") :=
  c5_resolver_deterministic _ _ _ _ rfl rfl

/-! ## Claim C9 — manual model id matching no oracle candidate -/

/-- Claim C9 (confirmed): when a manual id matches no oracle candidate,
`resolveModel` synthesizes a primary with score 0 whose vendor is guessed
from the id's textual prefix by the fixed table (claude→anthropic,
gpt/o3/o4→openai, gemini→google, sonar→perplexity), defaulting to the
most general vendor "openai" when no prefix matches; all oracle candidates
(primary then backups, in original order) become the backup chain and the
manual-override flag is set. -/
theorem c9_manual_unknown_id (ade : ADEResponse) (sel : String)
    (h : ∀ m ∈ ade.primaryModel :: ade.backupModels, m.id ≠ sel) :
    resolveModel ade (some sel) = .ok
      { model :=
          { id := sel
            name := sel
            provider :=
              if strStartsWith sel "claude" then "anthropic"
              else if strStartsWith sel "gpt" || strStartsWith sel "o3"
                  || strStartsWith sel "o4" then "openai"
              else if strStartsWith sel "gemini" then "google"
              else if strStartsWith sel "sonar" then "perplexity"
              else "openai"
            score := 0
            reasoning := "Manually selected by user" }
        backupModels := (ade.primaryModel :: ade.backupModels).map toModelInfo
        isManualSelection := true } := by
  have hfind :
      (ade.primaryModel :: ade.backupModels).find? (fun m => m.id == sel) = none :=
    List.find?_eq_none.mpr (fun x hx => by simpa using h x hx)
  simp [resolveModel, hfind, guessProviderFromModelId]

/-- Witness for C9 at the unknown manual id "not-a-real-model" (no prefix
matches, so the synthesized vendor is the default "openai"). -/
theorem c9_manual_unknown_id_witness :
    resolveModel ⟨⟨"gpt-5.2", "GPT-5.2", "openai", 1, "p"⟩, []⟩
        (some "not-a-real-model") = .ok
      { model :=
          { id := "not-a-real-model"
            name := "not-a-real-model"
            provider := "openai"
            score := 0
            reasoning := "Manually selected by user" }
        backupModels := [toModelInfo ⟨"gpt-5.2", "GPT-5.2", "openai", 1, "p"⟩]
        isManualSelection := true } := by
  have h := c9_manual_unknown_id ⟨⟨"gpt-5.2", "GPT-5.2", "openai", 1, "p"⟩, []⟩
    "not-a-real-model" (by decide)
  simpa using h

/-! ## Claim C6 — promotion of the first usable backup -/

/-- Counterexample to C6 as stated: with an unusable primary and two backups
sharing the id "dup-id" (the first on a usable vendor), the promoted
backup's chain drops the second duplicate as well, because the code filters
the backups by `m.id !== backup.id`; the claim's "original primary followed
by the other backups" would keep it. -/
theorem c6_counterexample :
    resolveModel
        ⟨⟨"px", "P", "mistral", 1, "r"⟩,
         [⟨"dup-id", "B1", "openai", 1, "r"⟩, ⟨"dup-id", "B2", "xai", 1, "r"⟩]⟩
        none
      = .ok
        { model := toModelInfo ⟨"dup-id", "B1", "openai", 1, "r"⟩
          backupModels := [toModelInfo ⟨"px", "P", "mistral", 1, "r"⟩]
          isManualSelection := false }
    ∧ resolveModel
        ⟨⟨"px", "P", "mistral", 1, "r"⟩,
         [⟨"dup-id", "B1", "openai", 1, "r"⟩, ⟨"dup-id", "B2", "xai", 1, "r"⟩]⟩
        none
      ≠ .ok
        { model := toModelInfo ⟨"dup-id", "B1", "openai", 1, "r"⟩
          backupModels := [toModelInfo ⟨"px", "P", "mistral", 1, "r"⟩,
            toModelInfo ⟨"dup-id", "B2", "xai", 1, "r"⟩]
          isManualSelection := false } := by
  refine ⟨rfl, fun hcontra => ?_⟩
  have h1 : resolveModel
      ⟨⟨"px", "P", "mistral", 1, "r"⟩,
       [⟨"dup-id", "B1", "openai", 1, "r"⟩, ⟨"dup-id", "B2", "xai", 1, "r"⟩]⟩
      none
    = .ok
      { model := toModelInfo ⟨"dup-id", "B1", "openai", 1, "r"⟩
        backupModels := [toModelInfo ⟨"px", "P", "mistral", 1, "r"⟩]
        isManualSelection := false } := rfl
  rw [h1] at hcontra
  have h2 := Except.ok.inj hcontra
  exact absurd (congrArg Resolved.backupModels h2) (by decide)

/-- Claim C6 (amended): with no manual id, an unusable-vendor primary and a
first usable backup `b`, `resolveModel` promotes `b` to primary with the
manual flag off, and the backup chain is the original primary followed by
the remaining backups whose id differs from `b`'s, in original relative
order — which is exactly the other backups whenever no other backup shares
`b`'s id. -/
theorem c6_promoted_backup_chain (ade : ADEResponse) (b : ADEModelResult)
    (l1 l2 : List ADEModelResult)
    (hp : SUPPORTED_PROVIDERS.contains ade.primaryModel.provider = false)
    (hsplit : ade.backupModels = l1 ++ b :: l2)
    (hl1 : ∀ m ∈ l1, SUPPORTED_PROVIDERS.contains m.provider = false)
    (hb : SUPPORTED_PROVIDERS.contains b.provider = true) :
    resolveModel ade none = .ok
      { model := toModelInfo b
        backupModels := toModelInfo ade.primaryModel ::
          ((l1 ++ l2).filter (fun m => m.id != b.id)).map toModelInfo
        isManualSelection := false }
    ∧ ((l1 ++ l2).all (fun m => m.id != b.id) = true →
        resolveModel ade none = .ok
          { model := toModelInfo b
            backupModels := toModelInfo ade.primaryModel :: (l1 ++ l2).map toModelInfo
            isManualSelection := false }) := by
  have hfind :
      ade.backupModels.find? (fun m => SUPPORTED_PROVIDERS.contains m.provider)
        = some b := by
    rw [hsplit]
    exact find?_split_eq_some l1 b l2 hl1 hb
  have hfilter : ade.backupModels.filter (fun m => m.id != b.id)
      = (l1 ++ l2).filter (fun m => m.id != b.id) := by
    rw [hsplit]
    simp [List.filter_append, List.filter_cons]
  have hmain : resolveModel ade none = .ok
      { model := toModelInfo b
        backupModels := toModelInfo ade.primaryModel ::
          ((l1 ++ l2).filter (fun m => m.id != b.id)).map toModelInfo
        isManualSelection := false } := by
    simp only [resolveModel, hp, Bool.false_eq_true, if_false, hfind, hfilter]
  refine ⟨hmain, fun hall => ?_⟩
  have hkeep : (l1 ++ l2).filter (fun m => m.id != b.id) = l1 ++ l2 :=
    List.filter_eq_self.mpr (fun a ha => (List.all_eq_true.mp hall) a ha)
  rw [hmain, hkeep]

/-- Witness for C6 (amended) at a concrete oracle response: primary on the
unusable vendor "mistral", a single backup on "openai". -/
theorem c6_promoted_backup_chain_witness :
    resolveModel ⟨⟨"px", "P", "mistral", 1, "r"⟩, [⟨"bx", "B", "openai", 1, "r"⟩]⟩
        none = .ok
      { model := toModelInfo ⟨"bx", "B", "openai", 1, "r"⟩
        backupModels := [toModelInfo ⟨"px", "P", "mistral", 1, "r"⟩]
        isManualSelection := false } := by
  have h := (c6_promoted_backup_chain
    ⟨⟨"px", "P", "mistral", 1, "r"⟩, [⟨"bx", "B", "openai", 1, "r"⟩]⟩
    ⟨"bx", "B", "openai", 1, "r"⟩ [] [] (by decide) rfl (by decide) (by decide)).1
  simpa using h

/-! ## Claim C4 — usability of primary and backup vendors -/

/-- Counterexample to C4 as stated: (i) the resolver's usability test is the
fixed `SUPPORTED_PROVIDERS` set, not the credential-configured set — with
only `OPENAI_API_KEY` set, an oracle primary on "anthropic" is still
accepted as primary although "anthropic" is not in `getAvailableProviders`;
(ii) backups on unusable vendors are NOT filtered out of the backup list —
with a supported primary, a backup on "mistral" stays in the list; (iii)
with a manual id, even the primary may be on an unsupported vendor. -/
theorem c4_counterexample :
    ((resolveModel ⟨⟨"claude-sonnet-4-6", "Sonnet", "anthropic", 1, "r"⟩, []⟩
        none).toOption.map (fun d => d.model.provider) = some "anthropic")
    ∧ (getAvailableProviders (fun k => k == "OPENAI_API_KEY")).contains
        "anthropic" = false
    ∧ ((resolveModel ⟨⟨"gpt-5.2", "G", "openai", 1, "r"⟩,
          [⟨"mistral-large", "M", "mistral", 1, "r"⟩]⟩ none).toOption.map
        (fun d => d.backupModels.map (fun b => b.provider)) = some ["mistral"])
    ∧ SUPPORTED_PROVIDERS.contains "mistral" = false
    ∧ ((resolveModel ⟨⟨"mistral-large", "M", "mistral", 1, "r"⟩, []⟩
        (some "mistral-large")).toOption.map (fun d => d.model.provider)
        = some "mistral") :=
  ⟨rfl, by decide, rfl, by decide, rfl⟩

/-- Claim C4 (amended): the resolver's usability test is membership in the
fixed supported-vendor set (not credential configuration, which is only
reported to the oracle via `getAvailableProviders`).  With no manual id the
decision's primary is always on a supported vendor; backups are passed
through unfiltered, unsupported ones being skipped only when the retry
backup is chosen (`findSupportedBackup`); routing fails exactly when there
is no manual id and no oracle candidate at all is on a supported vendor;
with a manual id the decision never fails. -/
theorem c4_static_supported_set (ade : ADEResponse) :
    (∀ d, resolveModel ade none = .ok d →
        SUPPORTED_PROVIDERS.contains d.model.provider = true)
    ∧ ((resolveModel ade none).isOk = false ↔
        (SUPPORTED_PROVIDERS.contains ade.primaryModel.provider = false
          ∧ ∀ b ∈ ade.backupModels, SUPPORTED_PROVIDERS.contains b.provider = false))
    ∧ (∀ sel, (resolveModel ade (some sel)).isOk = true)
    ∧ (SUPPORTED_PROVIDERS.contains ade.primaryModel.provider = true →
        resolveModel ade none = .ok
          { model := toModelInfo ade.primaryModel
            backupModels := ade.backupModels.map toModelInfo
            isManualSelection := false })
    ∧ (∀ (l : List ModelInfo) (b : ModelInfo), findSupportedBackup l = some b →
        SUPPORTED_PROVIDERS.contains b.provider = true ∧ b ∈ l) := by
  have hfsb : ∀ (l : List ModelInfo) (b : ModelInfo), findSupportedBackup l = some b →
      SUPPORTED_PROVIDERS.contains b.provider = true ∧ b ∈ l := by
    intro l b h
    unfold findSupportedBackup at h
    have h1 := List.find?_some h
    exact ⟨by simpa using h1, List.mem_of_find?_eq_some h⟩
  have hmanual : ∀ sel, (resolveModel ade (some sel)).isOk = true := by
    intro sel
    cases hf : (ade.primaryModel :: ade.backupModels).find? (fun m => m.id == sel) with
    | none => simp [resolveModel, hf, Except.isOk, Except.toBool]
    | some m => simp [resolveModel, hf, Except.isOk, Except.toBool]
  by_cases hp : SUPPORTED_PROVIDERS.contains ade.primaryModel.provider = true
  · have hres : resolveModel ade none = .ok
        { model := toModelInfo ade.primaryModel
          backupModels := ade.backupModels.map toModelInfo
          isManualSelection := false } := by
      simp only [resolveModel, hp, if_true]
    refine ⟨?_, ?_, hmanual, fun _ => hres, hfsb⟩
    · intro d hd
      rw [hres] at hd
      have h2 := Except.ok.inj hd
      rw [← h2]
      exact hp
    · rw [hres]
      constructor
      · intro h
        simp [Except.isOk, Except.toBool] at h
      · rintro ⟨hfalse, -⟩
        rw [hp] at hfalse
        cases hfalse
  · have hp' : SUPPORTED_PROVIDERS.contains ade.primaryModel.provider = false :=
      Bool.eq_false_iff.mpr hp
    cases hf : ade.backupModels.find? (fun m => SUPPORTED_PROVIDERS.contains m.provider) with
    | some b =>
      have hres : resolveModel ade none = .ok
          { model := toModelInfo b
            backupModels := toModelInfo ade.primaryModel ::
              (ade.backupModels.filter (fun m => m.id != b.id)).map toModelInfo
            isManualSelection := false } := by
        simp only [resolveModel, hp', Bool.false_eq_true, if_false, hf]
      refine ⟨?_, ?_, hmanual, fun hptrue => absurd hptrue hp, hfsb⟩
      · intro d hd
        rw [hres] at hd
        have h2 := Except.ok.inj hd
        rw [← h2]
        have h3 := List.find?_some hf
        simpa using h3
      · rw [hres]
        constructor
        · intro h
          simp [Except.isOk, Except.toBool] at h
        · rintro ⟨-, hall⟩
          have hcontra := hall b (List.mem_of_find?_eq_some hf)
          have h3 := List.find?_some hf
          simp only [hcontra] at h3
          cases h3
    | none =>
      have hres : resolveModel ade none
          = .error "No supported provider available. ADE recommended providers that are not yet supported." := by
        simp only [resolveModel, hp', Bool.false_eq_true, if_false, hf]
      refine ⟨?_, ?_, hmanual, fun hptrue => absurd hptrue hp, hfsb⟩
      · intro d hd
        rw [hres] at hd
        cases hd
      · rw [hres]
        constructor
        · intro _
          exact ⟨hp', fun b hb =>
            Bool.eq_false_iff.mpr ((List.find?_eq_none.mp hf) b hb)⟩
        · intro _
          rfl

/-- Witness for C4 (amended) at a concrete oracle response with a supported
primary vendor. -/
theorem c4_static_supported_set_witness :
    SUPPORTED_PROVIDERS.contains
      (toModelInfo ⟨"gpt-5.2", "G", "openai", 1, "r"⟩).provider = true :=
  (c4_static_supported_set ⟨⟨"gpt-5.2", "G", "openai", 1, "r"⟩, []⟩).1
    { model := toModelInfo ⟨"gpt-5.2", "G", "openai", 1, "r"⟩
      backupModels := []
      isManualSelection := false } rfl

/-! ## Claim C7 — the cost lookup cascade -/

/-- The `for`-loop of `getModelPricing` returns the first entry, in table
declaration order, whose key is a prefix of or contained in the model id. -/
theorem pricingLoop_eq_firstMatch (modelId : String)
    (l : List (String × ModelPricing)) :
    pricingLoop modelId l
      = (l.find? (fun e => strStartsWith modelId e.1 || strIncludes modelId e.1)).map
          (fun e => e.2) := by
  induction l with
  | nil => rfl
  | cons e rest ih =>
    by_cases h : (strStartsWith modelId e.1 || strIncludes modelId e.1) = true
    · simp [pricingLoop, h]
    · have h' : (strStartsWith modelId e.1 || strIncludes modelId e.1) = false :=
        Bool.eq_false_iff.mpr h
      simp [pricingLoop, h', ih]

/-- Counterexample to C7 as stated: for the model id "gpt-5.2-pro-max" (no
exact pricing entry) the matching keys are "gpt-5.2", "gpt-5.2-pro" and
"gpt-5"; the claim's longest-match rule picks "gpt-5.2-pro" (21 USD/M
input), but the code takes the FIRST match in table order, "gpt-5.2"
(1.75 USD/M input), so the two costs differ at one million input tokens. -/
theorem c7_counterexample :
    claimCostLongestMatch "openai" "gpt-5.2-pro-max" ⟨1000000, 0, 0, 0, none⟩
      ≠ calculateCost "openai" "gpt-5.2-pro-max" ⟨1000000, 0, 0, 0, none⟩
    ∧ calculateCost "openai" "gpt-5.2-pro-max" ⟨1000000, 0, 0, 0, none⟩ = 1.75
    ∧ claimCostLongestMatch "openai" "gpt-5.2-pro-max" ⟨1000000, 0, 0, 0, none⟩
      = 21 := by
  have hpc : getModelPricing "gpt-5.2-pro-max" "openai" = ⟨1.75, 14⟩ := rfl
  have hlc : claimPricingLongestMatch "gpt-5.2-pro-max" "openai" = ⟨21, 168⟩ := rfl
  have hcost : calculateCost "openai" "gpt-5.2-pro-max" ⟨1000000, 0, 0, 0, none⟩
      = 1.75 := by
    simp only [calculateCost, hpc, calculateWebSearchCost, Option.getD, round6]
    norm_num [round_eq]
  have hclaim : claimCostLongestMatch "openai" "gpt-5.2-pro-max"
      ⟨1000000, 0, 0, 0, none⟩ = 21 := by
    simp only [claimCostLongestMatch, hlc, calculateWebSearchCost, Option.getD, round6]
    norm_num [round_eq]
  refine ⟨?_, hcost, hclaim⟩
  rw [hcost, hclaim]
  norm_num

/-- Claim C7 (amended): cost lookup proceeds — exact model id match in the
pricing table, else the FIRST (in the table's declaration order) known
identifier that is a prefix of or contained in the model id, else the
vendor-level default rate, else the global default ⟨2, 10⟩; reasoning tokens
are billed at the output rate; the per-search fee from the fixed vendor→fee
table is charged per search when `usage.webSearchRequests > 0`; the result
is rounded to 6 decimal places.  The embedding is a total function, so no
input throws. -/
theorem c7_cost_cascade (provider modelId : String) (usage : TokenUsage) :
    getModelPricing modelId provider
      = (match MODEL_PRICING.find? (fun e => e.1 == modelId) with
         | some e => e.2
         | none =>
           match firstOrderMatch modelId with
           | some p => p
           | none =>
             match PROVIDER_DEFAULTS.find? (fun e => e.1 == provider) with
             | some e => e.2
             | none => ⟨2, 10⟩)
    ∧ calculateCost provider modelId usage
      = round6
          ((usage.inputTokens : ℚ) / 1000000
              * (getModelPricing modelId provider).inputPerMillion
            + (usage.outputTokens : ℚ) / 1000000
              * (getModelPricing modelId provider).outputPerMillion
            + (usage.reasoningTokens : ℚ) / 1000000
              * (getModelPricing modelId provider).outputPerMillion
            + (if usage.webSearchRequests.getD 0 = 0 then 0
               else (match WEB_SEARCH_COST_PER_REQUEST.find?
                      (fun e => e.1 == provider) with
                     | some e => e.2
                     | none => 0) * (usage.webSearchRequests.getD 0 : ℚ))) := by
  constructor
  · unfold getModelPricing firstOrderMatch
    rw [pricingLoop_eq_firstMatch]
  · unfold calculateCost calculateWebSearchCost
    rfl

/-! ## Claim C8 — cost is monotone in token counts -/

/-- Every rate in the model pricing table is non-negative. -/
theorem model_pricing_entry_nonneg :
    ∀ e ∈ MODEL_PRICING, 0 ≤ e.2.inputPerMillion ∧ 0 ≤ e.2.outputPerMillion := by
  intro e he
  fin_cases he <;> exact ⟨by norm_num, by norm_num⟩

/-- Every rate in the provider default table is non-negative. -/
theorem provider_defaults_entry_nonneg :
    ∀ e ∈ PROVIDER_DEFAULTS, 0 ≤ e.2.inputPerMillion ∧ 0 ≤ e.2.outputPerMillion := by
  intro e he
  fin_cases he <;> exact ⟨by norm_num, by norm_num⟩

/-- Whatever tier of the cascade resolves, the returned rates are
non-negative. -/
theorem getModelPricing_nonneg (modelId provider : String) :
    0 ≤ (getModelPricing modelId provider).inputPerMillion
      ∧ 0 ≤ (getModelPricing modelId provider).outputPerMillion := by
  unfold getModelPricing
  cases hexact : MODEL_PRICING.find? (fun e => e.1 == modelId) with
  | some e =>
    simpa using model_pricing_entry_nonneg e (List.mem_of_find?_eq_some hexact)
  | none =>
    rw [pricingLoop_eq_firstMatch]
    cases hloop : MODEL_PRICING.find?
        (fun e => strStartsWith modelId e.1 || strIncludes modelId e.1) with
    | some e =>
      simpa using model_pricing_entry_nonneg e (List.mem_of_find?_eq_some hloop)
    | none =>
      cases hdef : PROVIDER_DEFAULTS.find? (fun e => e.1 == provider) with
      | some e =>
        simpa using provider_defaults_entry_nonneg e (List.mem_of_find?_eq_some hdef)
      | none => exact ⟨by norm_num, by norm_num⟩

/-- Rounding half-up to 6 decimals is weakly monotone. -/
theorem round6_mono {x y : ℚ} (h : x ≤ y) : round6 x ≤ round6 y := by
  unfold round6
  rw [div_le_div_iff_of_pos_right (by norm_num : (0 : ℚ) < 1000000)]
  rw [Int.cast_le]
  rw [round_eq, round_eq]
  apply Int.floor_le_floor
  have := mul_le_mul_of_nonneg_right h (by norm_num : (0 : ℚ) ≤ 1000000)
  linarith

/-- Claim C8 (confirmed): with the cached-token and web-search fields held
fixed, increasing any of the input, output, or reasoning token counts never
decreases the computed cost. -/
theorem c8_cost_monotone (provider modelId : String) (u u' : TokenUsage)
    (hin : u.inputTokens ≤ u'.inputTokens)
    (hout : u.outputTokens ≤ u'.outputTokens)
    (hreas : u.reasoningTokens ≤ u'.reasoningTokens)
    (hweb : u.webSearchRequests = u'.webSearchRequests) :
    calculateCost provider modelId u ≤ calculateCost provider modelId u' := by
  have hp := getModelPricing_nonneg modelId provider
  unfold calculateCost
  apply round6_mono
  rw [hweb]
  have hdiv : ∀ (a b : ℕ), a ≤ b → (a : ℚ) / 1000000 ≤ (b : ℚ) / 1000000 := by
    intro a b hab
    apply div_le_div_of_nonneg_right ?_ (by norm_num)
    exact_mod_cast hab
  have h1 := mul_le_mul_of_nonneg_right (hdiv _ _ hin) hp.1
  have h2 := mul_le_mul_of_nonneg_right (hdiv _ _ hout) hp.2
  have h3 := mul_le_mul_of_nonneg_right (hdiv _ _ hreas) hp.2
  linarith

/-- Witness for C8 at concrete usages (one more input token). -/
theorem c8_cost_monotone_witness :
    calculateCost "anthropic" "claude-sonnet-4-6" ⟨10, 2, 0, 0, none⟩
      ≤ calculateCost "anthropic" "claude-sonnet-4-6" ⟨11, 2, 0, 0, none⟩ :=
  c8_cost_monotone "anthropic" "claude-sonnet-4-6" _ _ (by decide) (by decide)
    (by decide) rfl

/-! ## Claim C3 — adapter terminal events -/

/-- The Anthropic adapter's `for await` loop only yields non-terminal
events (`delta`, `thinking`, `tool_use`). -/
theorem anthropicLoop_no_terminal (evs : List AnthropicVendorEvent) :
    ∀ x ∈ (evs.map anthropicLoopEvent).flatten,
      x.isTerminal = false ∧ x.isError = false ∧ x.isDone = false := by
  intro x hx
  rw [List.mem_flatten] at hx
  obtain ⟨l, hl, hxl⟩ := hx
  rw [List.mem_map] at hl
  obtain ⟨e, -, rfl⟩ := hl
  cases e with
  | contentBlockDelta d =>
    cases d with
    | textDelta s =>
      simp only [anthropicLoopEvent, List.mem_singleton] at hxl
      subst hxl
      exact ⟨rfl, rfl, rfl⟩
    | thinkingDelta s =>
      simp only [anthropicLoopEvent, List.mem_singleton] at hxl
      subst hxl
      exact ⟨rfl, rfl, rfl⟩
    | otherDelta =>
      simp only [anthropicLoopEvent] at hxl
      cases hxl
  | contentBlockStartToolUse n =>
    simp only [anthropicLoopEvent, List.mem_singleton] at hxl
    subst hxl
    exact ⟨rfl, rfl, rfl⟩
  | contentBlockStartOther =>
    simp only [anthropicLoopEvent] at hxl
    cases hxl
  | otherEvent =>
    simp only [anthropicLoopEvent] at hxl
    cases hxl

/-- No `done` among an optional citations singleton. -/
theorem filter_done_ifcit (c : Prop) [Decidable c] (l : List Citation) :
    List.filter ProviderStreamEvent.isDone
      (if c then [ProviderStreamEvent.citations l] else []) = [] := by
  split <;> rfl

/-- No `error` among an optional citations singleton. -/
theorem filter_error_ifcit (c : Prop) [Decidable c] (l : List Citation) :
    List.filter ProviderStreamEvent.isError
      (if c then [ProviderStreamEvent.citations l] else []) = [] := by
  split <;> rfl

/-- The OpenAI adapter loop yields one `done` per `response.completed`
vendor event. -/
theorem openaiLoop_done_count (evs : List OpenAIVendorEvent) :
    ∀ st, ((openaiLoop st evs).filter ProviderStreamEvent.isDone).length
      = (evs.filter OpenAIVendorEvent.isCompleted).length := by
  induction evs with
  | nil => intro st; rfl
  | cons e rest ih =>
    intro st
    rw [openaiLoop, List.filter_append, List.length_append, ih]
    cases e with
    | completed r =>
      simp only [openaiStep, List.filter_append, List.length_append, filter_done_ifcit,
        List.length_nil, List.filter_cons, List.filter_nil]
      simp only [ProviderStreamEvent.isDone, OpenAIVendorEvent.isCompleted]
      simp
      omega
    | outputTextDelta s =>
      simp only [openaiStep, List.filter_cons, List.filter_nil]
      simp [ProviderStreamEvent.isDone, OpenAIVendorEvent.isCompleted]
    | reasoningSummaryTextDelta s =>
      simp only [openaiStep, List.filter_cons, List.filter_nil]
      simp [ProviderStreamEvent.isDone, OpenAIVendorEvent.isCompleted]
    | otherEvent =>
      simp only [openaiStep, List.filter_nil]
      simp [OpenAIVendorEvent.isCompleted]

/-- The OpenAI adapter loop never yields an `error` event. -/
theorem openaiLoop_no_error (evs : List OpenAIVendorEvent) :
    ∀ st, (openaiLoop st evs).filter ProviderStreamEvent.isError = [] := by
  induction evs with
  | nil => intro st; rfl
  | cons e rest ih =>
    intro st
    rw [openaiLoop, List.filter_append, ih, List.append_nil]
    cases e with
    | completed r =>
      simp only [openaiStep, List.filter_append, filter_error_ifcit,
        List.filter_cons, List.filter_nil]
      simp [ProviderStreamEvent.isError]
    | outputTextDelta s =>
      simp only [openaiStep, List.filter_cons, List.filter_nil]
      simp [ProviderStreamEvent.isError]
    | reasoningSummaryTextDelta s =>
      simp only [openaiStep, List.filter_cons, List.filter_nil]
      simp [ProviderStreamEvent.isError]
    | otherEvent => rfl

/-- Counterexample to C3 as stated: an Anthropic vendor stream that fails
mid-stream (here after one text delta) makes the adapter's produced
sequence contain ZERO terminal events — in particular no `error` event —
and the exception escapes the adapter boundary (second component `true`),
against the claimed "exactly one terminal event" and "a mid-stream vendor
failure becomes an error event rather than an exception". -/
theorem c3_counterexample :
    (anthropicStream [.contentBlockDelta (.textDelta "Hi")] true
      ⟨0, 0, 0, 0, []⟩).2 = true
    ∧ ((anthropicStream [.contentBlockDelta (.textDelta "Hi")] true
        ⟨0, 0, 0, 0, []⟩).1.filter ProviderStreamEvent.isTerminal).length = 0
    ∧ ((anthropicStream [.contentBlockDelta (.textDelta "Hi")] true
        ⟨0, 0, 0, 0, []⟩).1.filter ProviderStreamEvent.isError).length = 0 :=
  ⟨rfl, rfl, rfl⟩

/-- Claim C3 (amended): when the vendor stream completes without throwing,
the Anthropic adapter yields exactly one terminal event — a `done`, as the
final event — and never an `error` event; the OpenAI adapter yields no
`error` events and one `done` per vendor `response.completed` event (so
exactly one when the vendor protocol delivers exactly one `completed`).
When the vendor stream throws mid-stream, the exception escapes the
adapter (the generators have no try/catch): the Anthropic adapter's
produced prefix contains no terminal event at all, and no `error` event is
ever synthesised — the failure is absorbed by the orchestrator's
per-attempt try/catch instead. -/
theorem c3_adapter_terminal_events :
    (∀ (evs : List AnthropicVendorEvent) (fm : AnthropicFinalMessage),
      (anthropicStream evs false fm).2 = false
      ∧ ((anthropicStream evs false fm).1.filter
          ProviderStreamEvent.isTerminal).length = 1
      ∧ (∃ u w, (anthropicStream evs false fm).1.getLast?
          = some (.done u w))
      ∧ ((anthropicStream evs false fm).1.filter
          ProviderStreamEvent.isError).length = 0)
    ∧ (∀ (evs : List AnthropicVendorEvent) (fm : AnthropicFinalMessage),
      (anthropicStream evs true fm).2 = true
      ∧ ((anthropicStream evs true fm).1.filter
          ProviderStreamEvent.isTerminal).length = 0)
    ∧ (∀ evs : List OpenAIVendorEvent,
      (openaiStream evs false).2 = false
      ∧ ((openaiStream evs false).1.filter ProviderStreamEvent.isDone).length
          = (evs.filter OpenAIVendorEvent.isCompleted).length
      ∧ ((openaiStream evs false).1.filter ProviderStreamEvent.isError).length = 0)
    ∧ (∀ evs : List OpenAIVendorEvent, (openaiStream evs true).2 = true) := by
  have hloopnil : ∀ (evs : List AnthropicVendorEvent) (p : ProviderStreamEvent → Bool),
      (∀ x, x.isTerminal = false → p x = false) →
      ((evs.map anthropicLoopEvent).flatten.filter p) = [] := by
    intro evs p hp
    rw [List.filter_eq_nil_iff]
    intro a ha
    rw [hp a (anthropicLoop_no_terminal evs a ha).1]
    simp
  refine ⟨?_, ?_, ?_, fun evs => rfl⟩
  · intro evs fm
    have hterm : ((evs.map anthropicLoopEvent).flatten.filter
        ProviderStreamEvent.isTerminal) = [] := hloopnil evs _ (fun x hx => hx)
    have herr : ((evs.map anthropicLoopEvent).flatten.filter
        ProviderStreamEvent.isError) = [] := by
      apply hloopnil
      intro x hx
      cases x <;> simp_all [ProviderStreamEvent.isTerminal, ProviderStreamEvent.isError]
    refine ⟨rfl, ?_, ?_, ?_⟩
    · show ((((evs.map anthropicLoopEvent).flatten) ++ anthropicTail fm).filter
        ProviderStreamEvent.isTerminal).length = 1
      rw [List.filter_append, hterm, List.nil_append]
      unfold anthropicTail
      simp only [List.filter_append, filter_done_ifcit]
      by_cases hc : (fm.searchResultCitations.length > 0)
      · simp [hc, List.filter, ProviderStreamEvent.isTerminal]
      · simp [hc, List.filter, ProviderStreamEvent.isTerminal]
    · show ∃ u w, ((((evs.map anthropicLoopEvent).flatten) ++ anthropicTail fm).getLast?
        = some (.done u w))
      unfold anthropicTail
      rw [← List.append_assoc]
      exact ⟨_, _, List.getLast?_concat _⟩
    · show ((((evs.map anthropicLoopEvent).flatten) ++ anthropicTail fm).filter
        ProviderStreamEvent.isError).length = 0
      rw [List.filter_append, herr, List.nil_append]
      unfold anthropicTail
      by_cases hc : (fm.searchResultCitations.length > 0)
      · simp [hc, List.filter, ProviderStreamEvent.isError]
      · simp [hc, List.filter, ProviderStreamEvent.isError]
  · intro evs fm
    refine ⟨rfl, ?_⟩
    show (((evs.map anthropicLoopEvent).flatten).filter
        ProviderStreamEvent.isTerminal).length = 0
    rw [hloopnil evs _ (fun x hx => hx)]
    rfl
  · intro evs
    refine ⟨rfl, openaiLoop_done_count evs _, ?_⟩
    show ((openaiLoop (emptyUsage, []) evs).filter ProviderStreamEvent.isError).length = 0
    rw [openaiLoop_no_error evs]
    rfl

/-! ## Claims C1 and C2 — the fallback-once orchestration -/

/-- Mid-stream forwarding never sends a `done` or an `error` SSE: those are
only produced by `finalize` and the orchestrator's terminal branches. -/
theorem sfpLoop_forward_not_terminal (evs : List ProviderStreamEvent) :
    ∀ (c t : String) (cits : List Citation) (u : TokenUsage) (ws thr : Bool),
      ∀ e ∈ (sfpLoop c t cits u ws thr evs).2,
        e.isDone = false ∧ e.isErrorEvent = false := by
  induction evs with
  | nil =>
    intro c t cits u ws thr e he
    simp [sfpLoop] at he
  | cons ev rest ih =>
    intro c t cits u ws thr e he
    cases ev with
    | delta s =>
      simp only [sfpLoop] at he
      split at he
      · exact ih _ _ _ _ _ _ e he
      · simp only [List.mem_cons] at he
        rcases he with rfl | he
        · exact ⟨rfl, rfl⟩
        · exact ih _ _ _ _ _ _ e he
    | thinking s =>
      simp only [sfpLoop] at he
      split at he
      · exact ih _ _ _ _ _ _ e he
      · simp only [List.mem_cons] at he
        rcases he with rfl | he
        · exact ⟨rfl, rfl⟩
        · exact ih _ _ _ _ _ _ e he
    | citations cs =>
      simp only [sfpLoop, List.mem_cons] at he
      rcases he with rfl | he
      · exact ⟨rfl, rfl⟩
      · exact ih _ _ _ _ _ _ e he
    | toolUse t2 st2 =>
      simp only [sfpLoop, List.mem_cons] at he
      rcases he with rfl | he
      · exact ⟨rfl, rfl⟩
      · exact ih _ _ _ _ _ _ e he
    | done u2 w2 =>
      simp only [sfpLoop] at he
      exact ih _ _ _ _ _ _ e he
    | error msg =>
      simp only [sfpLoop] at he
      cases he

/-- The attempt driver forwards no `done` and no `error` SSE. -/
theorem streamFromProvider_forward_not_terminal (p : String) (a : AttemptStream) :
    ∀ e ∈ (streamFromProvider p a).2, e.isDone = false ∧ e.isErrorEvent = false := by
  intro e he
  unfold streamFromProvider at he
  split at he
  · exact sfpLoop_forward_not_terminal _ _ _ _ _ _ _ e he
  · cases he

theorem getLast?_tail_form (x y z : SSE) (l1 l2 : List SSE) :
    (x :: l1 ++ y :: l2 ++ [z]).getLast? = some z := by
  have h : x :: l1 ++ y :: l2 ++ [z] = (x :: l1 ++ y :: l2) ++ [z] := by simp
  rw [h, List.getLast?_concat]

/-- Claim C1 (confirmed): when the primary attempt fails and a backup on a
supported vendor exists, exactly one backup attempt occurs — the first
supported backup — preceded by a non-terminal `PROVIDER_RETRY` error
notice; if that backup attempt also fails, the outward stream ends with an
`ALL_PROVIDERS_FAILED` error event, no `done` event is emitted anywhere in
the stream, and no FinalizedExchange is persisted; no second backup is ever
attempted. -/
theorem c1_single_backup_retry (model backup : ModelInfo)
    (backupModels : List ModelInfo) (attemptOf : ModelInfo → AttemptStream)
    (hfail : (streamFromProvider model.provider (attemptOf model)).1.success = false)
    (hb : findSupportedBackup backupModels = some backup) :
    (handleChatStream model backupModels attemptOf).attempts = [model, backup]
    ∧ SUPPORTED_PROVIDERS.contains backup.provider = true
    ∧ (handleChatStream model backupModels attemptOf).events
        = SSE.routing :: (streamFromProvider model.provider (attemptOf model)).2
          ++ SSE.error "PROVIDER_RETRY" (retryMessage backup)
          :: (streamFromProvider backup.provider (attemptOf backup)).2
          ++ (if (streamFromProvider backup.provider (attemptOf backup)).1.success
              then [finalizeDoneEvent backup
                  (streamFromProvider backup.provider (attemptOf backup)).1]
              else [SSE.error "ALL_PROVIDERS_FAILED"
                  "Both primary and backup models failed. Please try again."])
    ∧ (∀ e ∈ (streamFromProvider model.provider (attemptOf model)).2,
        e.isDone = false ∧ e.isErrorEvent = false)
    ∧ (∀ e ∈ (streamFromProvider backup.provider (attemptOf backup)).2,
        e.isDone = false ∧ e.isErrorEvent = false)
    ∧ ((streamFromProvider backup.provider (attemptOf backup)).1.success = false →
        (handleChatStream model backupModels attemptOf).events.getLast?
          = some (SSE.error "ALL_PROVIDERS_FAILED"
              "Both primary and backup models failed. Please try again.")
        ∧ (∀ e ∈ (handleChatStream model backupModels attemptOf).events,
            e.isDone = false)
        ∧ (handleChatStream model backupModels attemptOf).finalized = []) := by
  have hsup : SUPPORTED_PROVIDERS.contains backup.provider = true := by
    unfold findSupportedBackup at hb
    have h := List.find?_some hb
    simpa using h
  by_cases h2 : (streamFromProvider backup.provider (attemptOf backup)).1.success = true
  · have hres : handleChatStream model backupModels attemptOf =
        { events := SSE.routing :: (streamFromProvider model.provider (attemptOf model)).2
            ++ SSE.error "PROVIDER_RETRY" (retryMessage backup)
            :: (streamFromProvider backup.provider (attemptOf backup)).2
            ++ [finalizeDoneEvent backup
                (streamFromProvider backup.provider (attemptOf backup)).1]
          attempts := [model, backup]
          finalized := [backup] } := by
      simp only [handleChatStream, hfail, Bool.false_eq_true, if_false, hb, h2, if_true]
    rw [hres]
    refine ⟨rfl, hsup, ?_, streamFromProvider_forward_not_terminal _ _,
      streamFromProvider_forward_not_terminal _ _, ?_⟩
    · rw [if_pos h2]
    · intro h3
      rw [h2] at h3
      cases h3
  · have h2' : (streamFromProvider backup.provider (attemptOf backup)).1.success = false :=
      Bool.eq_false_iff.mpr h2
    have hres : handleChatStream model backupModels attemptOf =
        { events := SSE.routing :: (streamFromProvider model.provider (attemptOf model)).2
            ++ SSE.error "PROVIDER_RETRY" (retryMessage backup)
            :: (streamFromProvider backup.provider (attemptOf backup)).2
            ++ [SSE.error "ALL_PROVIDERS_FAILED"
                "Both primary and backup models failed. Please try again."]
          attempts := [model, backup]
          finalized := [] } := by
      simp only [handleChatStream, hfail, Bool.false_eq_true, if_false, hb, h2',
        if_false]
    rw [hres]
    refine ⟨rfl, hsup, ?_, streamFromProvider_forward_not_terminal _ _,
      streamFromProvider_forward_not_terminal _ _, ?_⟩
    · rw [if_neg ?_]
      rw [h2']
      simp
    · intro _hb2
      refine ⟨getLast?_tail_form _ _ _ _ _, ?_, rfl⟩
      intro e he
      dsimp only at he
      rw [List.mem_append] at he
      rcases he with he | he
      · rw [List.mem_append] at he
        rcases he with he | he
        · rw [List.mem_cons] at he
          rcases he with rfl | he
          · rfl
          · exact (streamFromProvider_forward_not_terminal _ _ e he).1
        · rw [List.mem_cons] at he
          rcases he with rfl | he
          · rfl
          · exact (streamFromProvider_forward_not_terminal _ _ e he).1
      · rw [List.mem_singleton] at he
        subst he
        rfl

/-- Witness for C1 at a concrete failing primary (its adapter stream yields
an `error` event) with one supported backup that also fails. -/
theorem c1_single_backup_retry_witness :
    (handleChatStream ⟨"p", "P", "openai", 1, "r"⟩ [⟨"b", "B", "anthropic", 1, "r"⟩]
      (fun _ => ⟨[.error "boom"], false⟩)).attempts
      = [⟨"p", "P", "openai", 1, "r"⟩, ⟨"b", "B", "anthropic", 1, "r"⟩] :=
  (c1_single_backup_retry _ _ _ _ (by decide) (by decide)).1

/-- Counterexample to C2 as stated: an OpenAI vendor stream that ends
without a `response.completed` event (here a single text delta) makes the
adapter produce no `done` event at all, yet the attempt completes without
error, so `handleChat` finalizes: the assistant record is persisted once
although no attempt produced a `done` event. -/
theorem c2_counterexample :
    (handleChatStream ⟨"gpt-5.2", "G", "openai", 1, "r"⟩ []
        (fun _ => ⟨(openaiStream [.outputTextDelta "Hi"] false).1,
                   (openaiStream [.outputTextDelta "Hi"] false).2⟩)).finalized.length
      = 1
    ∧ ((openaiStream [.outputTextDelta "Hi"] false).1.filter
        ProviderStreamEvent.isDone).length = 0 :=
  ⟨rfl, rfl⟩

/-- Claim C2 (amended): the FinalizedExchange (assistant record) is written
at most once per request, is written exactly when the outward stream
carries a `done` SSE event, and is written exactly once iff some attempt —
primary, or the single supported backup — completed its provider stream
successfully (no `error` event, no exception).  A successful attempt
normally coincides with the adapter having produced a `done` event, except
that an OpenAI vendor stream ending without a `completed` event still
counts as success and is persisted with zero usage. -/
theorem c2_finalize_exactly_once_on_success (model : ModelInfo)
    (backupModels : List ModelInfo) (attemptOf : ModelInfo → AttemptStream) :
    (handleChatStream model backupModels attemptOf).finalized.length ≤ 1
    ∧ ((handleChatStream model backupModels attemptOf).events.filter
        SSE.isDone).length
        = (handleChatStream model backupModels attemptOf).finalized.length
    ∧ ((handleChatStream model backupModels attemptOf).finalized.length = 1 ↔
        ((streamFromProvider model.provider (attemptOf model)).1.success = true
          ∨ ∃ b, findSupportedBackup backupModels = some b
              ∧ (streamFromProvider b.provider (attemptOf b)).1.success = true)) := by
  have hno : ∀ (p : String) (a : AttemptStream),
      (streamFromProvider p a).2.filter SSE.isDone = [] := by
    intro p a
    rw [List.filter_eq_nil_iff]
    intro x hx
    rw [(streamFromProvider_forward_not_terminal p a x hx).1]
    simp
  by_cases h1 : (streamFromProvider model.provider (attemptOf model)).1.success = true
  · have hres : handleChatStream model backupModels attemptOf =
        { events := SSE.routing ::
            (streamFromProvider model.provider (attemptOf model)).2
            ++ [finalizeDoneEvent model
                (streamFromProvider model.provider (attemptOf model)).1]
          attempts := [model]
          finalized := [model] } := by
      simp only [handleChatStream, h1, if_true]
    rw [hres]
    refine ⟨by norm_num, ?_, ?_⟩
    · dsimp only
      simp [List.filter_append, List.filter_cons, hno, SSE.isDone, finalizeDoneEvent]
    · dsimp only
      simp [h1]
  · have h1' : (streamFromProvider model.provider (attemptOf model)).1.success
        = false := Bool.eq_false_iff.mpr h1
    cases hb : findSupportedBackup backupModels with
    | none =>
      have hres : handleChatStream model backupModels attemptOf =
          { events := SSE.routing ::
              (streamFromProvider model.provider (attemptOf model)).2
              ++ [SSE.error "PROVIDER_ERROR"
                  "Provider failed and no backup model is available."]
            attempts := [model]
            finalized := [] } := by
        simp only [handleChatStream, h1', Bool.false_eq_true, if_false, hb]
      rw [hres]
      refine ⟨by norm_num, ?_, ?_⟩
      · dsimp only
        simp [List.filter_append, List.filter_cons, hno, SSE.isDone]
      · dsimp only
        simp [h1']
    | some b =>
      by_cases h2 : (streamFromProvider b.provider (attemptOf b)).1.success = true
      · have hres : handleChatStream model backupModels attemptOf =
            { events := SSE.routing ::
                (streamFromProvider model.provider (attemptOf model)).2
                ++ SSE.error "PROVIDER_RETRY" (retryMessage b)
                :: (streamFromProvider b.provider (attemptOf b)).2
                ++ [finalizeDoneEvent b (streamFromProvider b.provider (attemptOf b)).1]
              attempts := [model, b]
              finalized := [b] } := by
          simp only [handleChatStream, h1', Bool.false_eq_true, if_false, hb, h2,
            if_true]
        rw [hres]
        refine ⟨by norm_num, ?_, ?_⟩
        · dsimp only
          simp [List.filter_append, List.filter_cons, hno, SSE.isDone,
            finalizeDoneEvent]
        · dsimp only
          constructor
          · intro _
            exact Or.inr ⟨b, rfl, h2⟩
          · intro _
            rfl
      · have h2' : (streamFromProvider b.provider (attemptOf b)).1.success = false :=
          Bool.eq_false_iff.mpr h2
        have hres : handleChatStream model backupModels attemptOf =
            { events := SSE.routing ::
                (streamFromProvider model.provider (attemptOf model)).2
                ++ SSE.error "PROVIDER_RETRY" (retryMessage b)
                :: (streamFromProvider b.provider (attemptOf b)).2
                ++ [SSE.error "ALL_PROVIDERS_FAILED"
                    "Both primary and backup models failed. Please try again."]
              attempts := [model, b]
              finalized := [] } := by
          simp only [handleChatStream, h1', Bool.false_eq_true, if_false, hb, h2',
            if_false]
        rw [hres]
        refine ⟨by norm_num, ?_, ?_⟩
        · dsimp only
          simp [List.filter_append, List.filter_cons, hno, SSE.isDone]
        · dsimp only
          constructor
          · intro h
            exact absurd h (by norm_num)
          · rintro (hs | ⟨b', hb', hs⟩)
            · rw [h1'] at hs
              cases hs
            · injection hb' with h3
              subst h3
              rw [h2'] at hs
              cases hs

/-! ## Claim C10 — conversation history selection -/

theorem mem_insertByCreatedAt (x m : DBMessage) (l : List DBMessage) :
    x ∈ insertByCreatedAt m l ↔ x = m ∨ x ∈ l := by
  induction l with
  | nil => simp [insertByCreatedAt]
  | cons hd tl ih =>
    rw [insertByCreatedAt]
    split
    · simp [List.mem_cons]
    · rw [List.mem_cons, ih, List.mem_cons]
      tauto

theorem pairwise_insertByCreatedAt (m : DBMessage) (l : List DBMessage)
    (h : l.Pairwise (fun a b => a.created_at ≤ b.created_at)) :
    (insertByCreatedAt m l).Pairwise (fun a b => a.created_at ≤ b.created_at) := by
  induction l with
  | nil => simp [insertByCreatedAt]
  | cons hd tl ih =>
    obtain ⟨h1, h2⟩ := List.pairwise_cons.mp h
    rw [insertByCreatedAt]
    split
    case isTrue hle =>
      refine List.Pairwise.cons ?_ h
      intro y hy
      rcases List.mem_cons.mp hy with rfl | hy
      · exact hle
      · have := h1 y hy
        omega
    case isFalse hgt =>
      refine List.Pairwise.cons ?_ (ih h2)
      intro y hy
      rcases (mem_insertByCreatedAt y m tl).mp hy with rfl | hy
      · omega
      · exact h1 y hy

theorem pairwise_orderByCreatedAtAsc (l : List DBMessage) :
    (orderByCreatedAtAsc l).Pairwise (fun a b => a.created_at ≤ b.created_at) := by
  induction l with
  | nil => exact List.Pairwise.nil
  | cons hd tl ih => exact pairwise_insertByCreatedAt hd _ ih

theorem mem_orderByCreatedAtAsc (x : DBMessage) (l : List DBMessage) :
    x ∈ orderByCreatedAtAsc l → x ∈ l := by
  induction l with
  | nil => intro h; cases h
  | cons hd tl ih =>
    intro h
    rw [orderByCreatedAtAsc] at h
    rcases (mem_insertByCreatedAt x hd (orderByCreatedAtAsc tl)).mp h with rfl | h
    · exact List.mem_cons_self _ _
    · exact List.mem_cons_of_mem _ (ih h)

/-- Claim C10 (confirmed): the history handed to the adapter holds at most
20 stored rows, ordered by creation time ascending; a sub-conversation
request selects exactly the rows of that sub-conversation (so main-thread
rows, whose `sub_conversation_id` is null, are excluded) and prepends at
most one system message carrying the highlighted text; a main-thread
request selects only rows of the conversation with null
`sub_conversation_id`, excluding every sub-conversation row. -/
theorem c10_history_selection (messages : List DBMessage)
    (subs : List DBSubConversation) (conversationId subId : String) :
    (∃ ctx, fetchConversationHistory messages subs conversationId (some subId)
        = ctx ++ (selectSubMessages messages subId).map
            (fun m => ⟨m.role, m.content⟩)
      ∧ ctx.length ≤ 1
      ∧ ∀ c ∈ ctx, c.role = "system"
          ∧ ∃ s, subs.find? (fun x => x.id == subId) = some s
              ∧ c.content = highlightContextContent s.highlighted_text)
    ∧ (selectSubMessages messages subId).length ≤ 20
    ∧ (selectSubMessages messages subId).Pairwise
        (fun a b => a.created_at ≤ b.created_at)
    ∧ (∀ m ∈ selectSubMessages messages subId,
        m.sub_conversation_id = some subId)
    ∧ fetchConversationHistory messages subs conversationId none
        = (selectMainMessages messages conversationId).map
            (fun m => ⟨m.role, m.content⟩)
    ∧ (selectMainMessages messages conversationId).length ≤ 20
    ∧ (selectMainMessages messages conversationId).Pairwise
        (fun a b => a.created_at ≤ b.created_at)
    ∧ (∀ m ∈ selectMainMessages messages conversationId,
        m.conversation_id = conversationId ∧ m.sub_conversation_id = none) := by
  refine ⟨?_, ?_, ?_, ?_, rfl, ?_, ?_, ?_⟩
  · cases hsc : subs.find? (fun s => s.id == subId) with
    | none =>
      refine ⟨[], ?_, by norm_num, fun c hc => absurd hc (List.not_mem_nil c)⟩
      simp only [fetchConversationHistory, hsc]
    | some s =>
      by_cases hh : (s.highlighted_text == "") = true
      · refine ⟨[], ?_, by norm_num, fun c hc => absurd hc (List.not_mem_nil c)⟩
        simp only [fetchConversationHistory, hsc, hh, if_true]
      · refine ⟨[⟨"system", highlightContextContent s.highlighted_text⟩], ?_,
          by norm_num, ?_⟩
        · simp only [fetchConversationHistory, hsc, hh, Bool.false_eq_true, if_false]
        · intro c hc
          rw [List.mem_singleton] at hc
          subst hc
          exact ⟨rfl, s, rfl, rfl⟩
  · exact le_trans (List.length_take_le _ _) (le_refl 20)
  · exact List.Pairwise.sublist (List.take_sublist _ _)
      (pairwise_orderByCreatedAtAsc _)
  · intro m hm
    have hm2 := (List.take_sublist _ _).subset hm
    have hm3 := mem_orderByCreatedAtAsc _ _ hm2
    have hm4 := (List.mem_filter.mp hm3).2
    simpa using hm4
  · exact le_trans (List.length_take_le _ _) (le_refl 20)
  · exact List.Pairwise.sublist (List.take_sublist _ _)
      (pairwise_orderByCreatedAtAsc _)
  · intro m hm
    have hm2 := (List.take_sublist _ _).subset hm
    have hm3 := mem_orderByCreatedAtAsc _ _ hm2
    have hm4 := (List.mem_filter.mp hm3).2
    simp only [Bool.and_eq_true, beq_iff_eq] at hm4
    exact hm4

/-- Witness for C10 at a concrete one-row store. -/
theorem c10_history_selection_witness :
    (∀ m ∈ selectMainMessages [⟨"m1", "c", none, "user", "hello", 1⟩] "c",
      m.conversation_id = "c" ∧ m.sub_conversation_id = none) :=
  (c10_history_selection [⟨"m1", "c", none, "user", "hello", 1⟩] [] "c" "s").2.2.2.2.2.2.2

/-- Witness for C2 (amended) at a concrete request whose only attempt is an
empty adapter stream. -/
theorem c2_finalize_exactly_once_on_success_witness :
    (handleChatStream ⟨"p", "P", "openai", 1, "r"⟩ []
      (fun _ => ⟨[], false⟩)).finalized.length ≤ 1 :=
  (c2_finalize_exactly_once_on_success ⟨"p", "P", "openai", 1, "r"⟩ []
    (fun _ => ⟨[], false⟩)).1

/-- Witness for C3 (amended) at a concrete non-throwing empty vendor
stream. -/
theorem c3_adapter_terminal_events_witness :
    ((anthropicStream [] false ⟨0, 0, 0, 0, []⟩).1.filter
      ProviderStreamEvent.isTerminal).length = 1 :=
  (c3_adapter_terminal_events.1 [] ⟨0, 0, 0, 0, []⟩).2.1

/-- Witness for C7 (amended) at a concrete model id. -/
theorem c7_cost_cascade_witness :
    getModelPricing "gpt-4.1" "openai"
      = (match MODEL_PRICING.find? (fun e => e.1 == "gpt-4.1") with
         | some e => e.2
         | none =>
           match firstOrderMatch "gpt-4.1" with
           | some p => p
           | none =>
             match PROVIDER_DEFAULTS.find? (fun e => e.1 == "openai") with
             | some e => e.2
             | none => ⟨2, 10⟩) :=
  (c7_cost_cascade "openai" "gpt-4.1" ⟨0, 0, 0, 0, none⟩).1
